import Mathlib

/-!
Formal model of the SpamGuard email spam detection and refinement system
(`spam_detector.py`).

The external collaborators (the trained spam classifier and the Gemini
generation service) are modelled as oracle functions supplied as
parameters; Python exceptions are modelled as `Except` values;
probabilities and wall-clock times are modelled as rationals; `time.sleep`
calls are modelled as a recorded list of delays.  The iterative refinement
`while` loop of `EmailFilteringSystem.process_email` is modelled by
structural recursion on a fuel argument: the loop increments
`refinement_attempts` by exactly one per iteration and runs while
`refinement_attempts < max_refinement_attempts`, so the fuel
`max_refinement_attempts - refinement_attempts` decreases by one per
iteration and the loop guard `refinement_attempts < max_refinement_attempts`
is exactly `0 < fuel`.
-/

namespace SpamGuard

deriving instance DecidableEq for Except

/-- `EmailAnalysisResult` dataclass (spam_detector.py lines 24-34), with the
Python field defaults. -/
structure EmailAnalysisResult where
  original_email : String
  is_spam : Bool
  spam_probability : ℚ
  refined_email : Option String := none
  refinement_success : Bool := false
  refinement_attempts : ℕ := 0
  final_spam_probability : Option ℚ := none
  error_message : Option String := none
deriving DecidableEq

/-- The four refinement strategies of `GeminiEmailRefiner`
(`refine_spam_email`, `refine_spam_email_aggressive`,
`refine_spam_email_rewrite`, `refine_spam_email_conservative`). -/
inductive Strategy where
  | standard
  | aggressive
  | rewrite
  | conservative
deriving DecidableEq

/-- Strategy selection of the `if refinement_attempts == 1 / == 2 / == 3 /
else` chain in `process_email` (spam_detector.py lines 400-412), as a
function of the 1-based attempt index. -/
def strategyFor (attempt : ℕ) : Strategy :=
  if attempt = 1 then Strategy.standard
  else if attempt = 2 then Strategy.aggressive
  else if attempt = 3 then Strategy.rewrite
  else Strategy.conservative

/-- The mutable local state of the refinement `while` loop in
`process_email`: `current_email`, `current_spam_prob`,
`refinement_attempts`.  The `calls` field is a ghost trace recording, in
order, the strategy of every generation call issued by the loop. -/
structure LoopState where
  current_email : String
  current_spam_prob : ℚ
  refinement_attempts : ℕ
  calls : List Strategy
deriving DecidableEq

/-- State update of lines 421-422 (`current_email = refined_email;
current_spam_prob = refined_spam_prob`), with the attempt counter already
incremented for this iteration and the generation call recorded. -/
def stepState (s : LoopState) (refined_email : String) (refined_spam_prob : ℚ) : LoopState :=
  { current_email := refined_email
    current_spam_prob := refined_spam_prob
    refinement_attempts := s.refinement_attempts + 1
    calls := s.calls ++ [strategyFor (s.refinement_attempts + 1)] }

/-- The generation call failed or the refined text could not be classified:
the inner `except` (lines 439-441) breaks out of the loop with
`current_email` / `current_spam_prob` unchanged but the attempt counted
(the counter is incremented at line 396, before the `try`). -/
def breakState (s : LoopState) : LoopState :=
  { s with refinement_attempts := s.refinement_attempts + 1
           calls := s.calls ++ [strategyFor (s.refinement_attempts + 1)] }

/-- The `while current_spam_prob >= refine_threshold and
refinement_attempts < max_refinement_attempts` loop of `process_email`
(spam_detector.py lines 395-441).  `classify` is the classifier oracle
(`SpamDetector.classify_email`), `refine` the generation oracle (one of the
four `GeminiEmailRefiner` methods, selected by strategy, with its internal
retries already folded in); `.error` models a raised exception.
`spam_prob` is the probability of the original email, fixed for the whole
loop (used by the improvement-ratio check at line 430).  The
`spam_prob = 0` branch models the `ZeroDivisionError` that Python's
`(spam_prob - refined_spam_prob) / spam_prob` raises when `spam_prob == 0`;
it is caught by the inner `except` and breaks the loop, after
`current_email` / `current_spam_prob` were already updated. -/
def refinementLoop (classify : String → Except String (Bool × ℚ))
    (refine : Strategy → String → Except String String)
    (spam_prob refine_threshold : ℚ) : ℕ → LoopState → LoopState
  | 0, s => s
  | fuel + 1, s =>
    if refine_threshold ≤ s.current_spam_prob then
      match refine (strategyFor (s.refinement_attempts + 1)) s.current_email with
      | Except.error _ => breakState s
      | Except.ok refined_email =>
        match classify refined_email with
        | Except.error _ => breakState s
        | Except.ok (_, refined_spam_prob) =>
          if refined_spam_prob < refine_threshold then
            stepState s refined_email refined_spam_prob
          else if spam_prob = 0 then
            stepState s refined_email refined_spam_prob
          else if 3/10 ≤ (spam_prob - refined_spam_prob) / spam_prob ∧ refined_spam_prob < 8/10 then
            stepState s refined_email refined_spam_prob
          else
            refinementLoop classify refine spam_prob refine_threshold fuel
              (stepState s refined_email refined_spam_prob)
    else s

/-- Final reconciliation after the loop (spam_detector.py lines 443-454):
`if refinement_attempts > 0 and current_spam_prob < spam_prob` record
success, else record failure with an error message; both branches store the
attempt count and the final probability. -/
def reconcile (email_content : String) (is_spam : Bool) (spam_prob : ℚ)
    (final : LoopState) : EmailAnalysisResult :=
  if 0 < final.refinement_attempts ∧ final.current_spam_prob < spam_prob then
    { original_email := email_content
      is_spam := is_spam
      spam_probability := spam_prob
      refined_email := some final.current_email
      refinement_success := true
      refinement_attempts := final.refinement_attempts
      final_spam_probability := some final.current_spam_prob }
  else
    { original_email := email_content
      is_spam := is_spam
      spam_probability := spam_prob
      refinement_attempts := final.refinement_attempts
      final_spam_probability := some final.current_spam_prob
      error_message := some ("Refinement failed after " ++ toString final.refinement_attempts
        ++ " attempts. Final score: " ++ toString final.current_spam_prob) }

/-- Body of `process_email` under the outer `try` (spam_detector.py lines
376-457): classify the original email (an exception here escapes this
region, hence the `Except` result), then refine iteratively when
`spam_prob >= refine_threshold`.  Everything after the initial
classification is exception-free: the loop absorbs its own failures. -/
def process_email_body (classify : String → Except String (Bool × ℚ))
    (refine : Strategy → String → Except String String)
    (email_content : String) (refine_threshold : ℚ)
    (max_refinement_attempts : ℕ) : Except String EmailAnalysisResult :=
  match classify email_content with
  | Except.error e => Except.error e
  | Except.ok (is_spam, spam_prob) =>
    if refine_threshold ≤ spam_prob then
      Except.ok (reconcile email_content is_spam spam_prob
        (refinementLoop classify refine spam_prob refine_threshold max_refinement_attempts
          { current_email := email_content
            current_spam_prob := spam_prob
            refinement_attempts := 0
            calls := [] }))
    else
      Except.ok { original_email := email_content, is_spam := is_spam,
                  spam_probability := spam_prob }

/-- `EmailFilteringSystem.process_email` (spam_detector.py lines 362-463).
The outer `except` (lines 459-461) catches any exception escaping the body
— only the classification of the original email can raise there — and
returns the partially built result (`is_spam = False`,
`spam_probability = 0.0`, the Python constructor defaults of line 374) with
`error_message` set to `"Processing failed: " + str(e)`. -/
def process_email (classify : String → Except String (Bool × ℚ))
    (refine : Strategy → String → Except String String)
    (email_content : String) (refine_threshold : ℚ)
    (max_refinement_attempts : ℕ) : EmailAnalysisResult :=
  match process_email_body classify refine email_content refine_threshold
      max_refinement_attempts with
  | Except.ok r => r
  | Except.error e =>
    { original_email := email_content
      is_spam := false
      spam_probability := 0
      error_message := some ("Processing failed: " ++ e) }

/-- Outcome of one `self.model.generate_content(prompt)` call inside
`GeminiEmailRefiner.refine_spam_email`: either an exception or a response
text. -/
inductive CallOutcome where
  | raises (msg : String)
  | responds (text : String)

/-- Python's `str.strip()`: remove whitespace from both ends of the
string, modelled over the character list. -/
def pyStrip (s : String) : String :=
  String.mk (((s.data.dropWhile Char.isWhitespace).reverse.dropWhile
    Char.isWhitespace).reverse)

/-- Whether a call outcome raised an exception (spam_detector.py line 214's
`except` branch fires). -/
def CallOutcome.isRaise : CallOutcome → Bool
  | CallOutcome.raises _ => true
  | CallOutcome.responds _ => false

/-- Whether a call outcome passes the validation of spam_detector.py line
208 (`if refined_email and len(refined_email) > 10`): a response whose
stripped text is non-empty and longer than 10 characters.  A raising call
never succeeds; a response that fails this test is retried. -/
def CallOutcome.succeeds : CallOutcome → Bool
  | CallOutcome.raises _ => false
  | CallOutcome.responds t => decide (pyStrip t ≠ "" ∧ (pyStrip t).length > 10)

/-- The `for attempt in range(max_retries)` retry loop of
`GeminiEmailRefiner.refine_spam_email` (spam_detector.py lines 201-221),
by structural recursion on the remaining attempts
(`remaining = max_retries - attempt`).  `calls k` is the outcome of the
call made at 0-based attempt index `k`.  Returns the result together with
the list of `time.sleep(2 ** attempt)` backoff delays performed; the
too-short-response branch (lines 211-212) continues without sleeping, the
exception branch sleeps `2 ** attempt` when `attempt < max_retries - 1`
and otherwise re-raises (lines 214-219); when the loop finishes without a
valid response, line 221 raises
`"Failed to refine email after {max_retries} attempts"`. -/
def refineAttempts (calls : ℕ → CallOutcome) (max_retries : ℕ) :
    ℕ → ℕ → Except String String × List ℕ
  | _, 0 =>
    (Except.error ("Failed to refine email after " ++ toString max_retries ++ " attempts"), [])
  | attempt, remaining + 1 =>
    match calls attempt with
    | CallOutcome.responds text =>
      if pyStrip text ≠ "" ∧ (pyStrip text).length > 10 then
        (Except.ok (pyStrip text), [])
      else
        refineAttempts calls max_retries (attempt + 1) remaining
    | CallOutcome.raises msg =>
      if attempt < max_retries - 1 then
        ((refineAttempts calls max_retries (attempt + 1) remaining).1,
          2 ^ attempt :: (refineAttempts calls max_retries (attempt + 1) remaining).2)
      else
        (Except.error msg, [])

/-- `GeminiEmailRefiner.refine_spam_email` retry behaviour (spam_detector.py
lines 169-221): run the retry loop from attempt 0 with `max_retries`
attempts available. -/
def refine_spam_email (calls : ℕ → CallOutcome) (max_retries : ℕ) :
    Except String String × List ℕ :=
  refineAttempts calls max_retries 0 max_retries

/-- Classifier oracle for the §8 worsening-then-exhaustion scenario:
original email scores 0.95, the three refined texts score 0.7, 0.9, 0.75. -/
def scenarioClassify : String → Except String (Bool × ℚ)
  | "original email" => Except.ok (true, Rat.divInt 19 20)
  | "refined one" => Except.ok (true, Rat.divInt 7 10)
  | "refined two" => Except.ok (true, Rat.divInt 9 10)
  | "refined three" => Except.ok (true, Rat.divInt 3 4)
  | _ => Except.error "unknown text"

/-- Generation oracle for the §8 worsening-then-exhaustion scenario: each
attempt's strategy produces the next refined text. -/
def scenarioRefine : Strategy → String → Except String String
  | Strategy.standard, "original email" => Except.ok "refined one"
  | Strategy.aggressive, "refined one" => Except.ok "refined two"
  | Strategy.rewrite, "refined two" => Except.ok "refined three"
  | _, _ => Except.error "unexpected call"

/-- Classifier oracle that succeeds on the original email with probability
0.9 and raises on every other text (in particular on any refined text). -/
def refinedFailClassify : String → Except String (Bool × ℚ)
  | "original email" => Except.ok (true, Rat.divInt 9 10)
  | _ => Except.error "inference failure"

/-- Generation oracle that always succeeds with a fixed refined text. -/
def constantRefine : Strategy → String → Except String String :=
  fun _ _ => Except.ok "refined one"

/-- Classifier oracle: original scores 0.9, the first refined text scores
0.7 (an improvement that stays above a 0.6 threshold). -/
def improveClassify : String → Except String (Bool × ℚ)
  | "original email" => Except.ok (true, Rat.divInt 9 10)
  | "refined one" => Except.ok (true, Rat.divInt 7 10)
  | _ => Except.error "unknown text"

/-- Generation oracle: attempt 1 (standard strategy) succeeds, attempt 2
(aggressive strategy) raises. -/
def failSecondRefine : Strategy → String → Except String String
  | Strategy.standard, "original email" => Except.ok "refined one"
  | _, _ => Except.error "generation service unavailable"

/-- Classifier oracle that scores every text 0.9. -/
def alwaysSpamClassify : String → Except String (Bool × ℚ) :=
  fun _ => Except.ok (true, Rat.divInt 9 10)

/-- Generation-call oracle whose every call returns a response of trimmed
length 5 (≤ 10, hence judged too short). -/
def shortCalls : ℕ → CallOutcome :=
  fun _ => CallOutcome.responds "short"

/-- Generation-call oracle whose every call raises. -/
def raisingCalls : ℕ → CallOutcome :=
  fun _ => CallOutcome.raises "api down"

/-- Mixed generation-call oracle: attempt 0 raises, attempt 1 returns a
too-short response, every later attempt raises again. -/
def mixedCalls : ℕ → CallOutcome
  | 0 => CallOutcome.raises "timeout"
  | 1 => CallOutcome.responds "hmm"
  | _ => CallOutcome.raises "server error"

/-- `self.min_request_interval = 1.0` (spam_detector.py line 153). -/
def min_request_interval : ℚ := 1

/-- `GeminiEmailRefiner._rate_limit` (spam_detector.py lines 157-167):
given the recorded `last_request_time` and the current clock reading,
returns the time at which `_rate_limit` returns — which is both the start
time of the outbound call that follows it and, because line 167 runs
`self.last_request_time = time.time()` after the sleep and before the
outbound call, the new recorded `last_request_time`. -/
def rate_limit (last_request_time current_time : ℚ) : ℚ :=
  if current_time - last_request_time < min_request_interval then
    current_time + (min_request_interval - (current_time - last_request_time))
  else
    current_time

/-- One outbound `generate_content` call, with its start and finish times. -/
structure GenCall where
  start : ℚ
  finish : ℚ
deriving DecidableEq

/-- Two successive rate-limited generation calls through one
`GeminiEmailRefiner` instance.  `last0` is the initial
`last_request_time`, `t1` the clock when the first call reaches
`_rate_limit`, `d1`/`d2` the durations of the two `generate_content`
calls, and `g` the delay between the first call finishing and the second
call reaching `_rate_limit`. -/
def twoCalls (last0 t1 d1 g d2 : ℚ) : GenCall × GenCall :=
  (⟨rate_limit last0 t1, rate_limit last0 t1 + d1⟩,
   ⟨rate_limit (rate_limit last0 t1) (rate_limit last0 t1 + d1 + g),
    rate_limit (rate_limit last0 t1) (rate_limit last0 t1 + d1 + g) + d2⟩)

/-- Classifier oracle that scores every text 0.1 (ham). -/
def hamClassify : String → Except String (Bool × ℚ) :=
  fun _ => Except.ok (false, Rat.divInt 1 10)

/-- Classifier oracle that raises on every text (model unusable). -/
def errClassify : String → Except String (Bool × ℚ) :=
  fun _ => Except.error "model not loaded"

/-- Generation oracle that raises on every call. -/
def alwaysFailRefine : Strategy → String → Except String String :=
  fun _ _ => Except.error "gemini api error"

/-- Classifier oracle: original scores 0.9; the refined text scores 0.62,
which is at least a 0.6 threshold but improves on 0.9 by more than 30%. -/
def earlyStopClassify : String → Except String (Bool × ℚ)
  | "original email" => Except.ok (true, Rat.divInt 9 10)
  | "refined one" => Except.ok (true, Rat.divInt 31 50)
  | _ => Except.error "unknown text"

/-! ## Helper lemmas shared between the claim theorems -/

/-- The loop never decreases the attempt counter. -/
theorem refinementLoop_attempts_le (c : String → Except String (Bool × ℚ))
    (f : Strategy → String → Except String String) (p θ : ℚ) :
    ∀ fuel s, s.refinement_attempts ≤ (refinementLoop c f p θ fuel s).refinement_attempts := by
  intro fuel
  induction fuel with
  | zero => intro s; exact le_refl _
  | succ n ih =>
    intro s
    simp only [refinementLoop]
    split
    · split
      · simp [breakState]
      · split
        · simp [breakState]
        · split
          · simp [stepState]
          · split
            · simp [stepState]
            · split
              · simp [stepState]
              · refine le_trans ?_ (ih _)
                simp [stepState]
    · exact le_refl _

/-- If the loop guard holds and fuel remains, at least one attempt executes. -/
theorem refinementLoop_attempts_pos (c : String → Except String (Bool × ℚ))
    (f : Strategy → String → Except String String) (p θ : ℚ) (fuel : ℕ) (s : LoopState)
    (h : θ ≤ s.current_spam_prob) :
    s.refinement_attempts + 1 ≤ (refinementLoop c f p θ (fuel + 1) s).refinement_attempts := by
  simp only [refinementLoop]
  rw [if_pos h]
  split
  · simp [breakState]
  · split
    · simp [breakState]
    · split
      · simp [stepState]
      · split
        · simp [stepState]
        · split
          · simp [stepState]
          · exact le_trans (by simp [stepState]) (refinementLoop_attempts_le c f p θ _ _)

/-- `reconcile` copies the loop's attempt counter into the result. -/
theorem reconcile_refinement_attempts (e : String) (b : Bool) (p : ℚ) (final : LoopState) :
    (reconcile e b p final).refinement_attempts = final.refinement_attempts := by
  unfold reconcile; split <;> rfl

/-- `reconcile` always stores the loop's final probability. -/
theorem reconcile_final_spam_probability (e : String) (b : Bool) (p : ℚ) (final : LoopState) :
    (reconcile e b p final).final_spam_probability = some final.current_spam_prob := by
  unfold reconcile; split <;> rfl

/-- `reconcile` marks success exactly when an attempt ran and the final
probability strictly improved on the original. -/
theorem reconcile_success_iff (e : String) (b : Bool) (p : ℚ) (final : LoopState) :
    (reconcile e b p final).refinement_success = true ↔
      (0 < final.refinement_attempts ∧ final.current_spam_prob < p) := by
  unfold reconcile
  split
  · rename_i h
    simpa using h
  · rename_i h
    simp only [Bool.false_eq_true, false_iff]
    exact h

/-- The successful branch of `reconcile`, explicitly. -/
theorem reconcile_eq_of_success (e : String) (b : Bool) (p : ℚ) (final : LoopState)
    (h1 : 0 < final.refinement_attempts) (h2 : final.current_spam_prob < p) :
    reconcile e b p final =
      { original_email := e, is_spam := b, spam_probability := p,
        refined_email := some final.current_email, refinement_success := true,
        refinement_attempts := final.refinement_attempts,
        final_spam_probability := some final.current_spam_prob } := by
  unfold reconcile
  rw [if_pos ⟨h1, h2⟩]

/-- The generation calls issued by the loop are exactly `strategyFor` of the
consecutive attempt indices, whatever the oracles answer. -/
theorem refinementLoop_calls (c : String → Except String (Bool × ℚ))
    (f : Strategy → String → Except String String) (p θ : ℚ) :
    ∀ fuel s, (refinementLoop c f p θ fuel s).calls =
      s.calls ++ (List.range' (s.refinement_attempts + 1)
        ((refinementLoop c f p θ fuel s).refinement_attempts - s.refinement_attempts)).map
          strategyFor := by
  intro fuel
  induction fuel with
  | zero => intro s; simp [refinementLoop]
  | succ n ih =>
    intro s
    by_cases hcond : θ ≤ s.current_spam_prob
    · rcases hre : f (strategyFor (s.refinement_attempts + 1)) s.current_email with msg | refined
      · simp [refinementLoop, hcond, hre, breakState, List.range'_succ, Nat.add_sub_cancel_left]
      · rcases hcl : c refined with msg | bq
        · simp [refinementLoop, hcond, hre, hcl, breakState, List.range'_succ,
            Nat.add_sub_cancel_left]
        · obtain ⟨b, q⟩ := bq
          by_cases h1 : q < θ
          · simp [refinementLoop, hcond, hre, hcl, h1, stepState, List.range'_succ,
              Nat.add_sub_cancel_left]
          · by_cases h2 : p = 0
            · simp [refinementLoop, hcond, hre, hcl, h1, h2, stepState, List.range'_succ,
                Nat.add_sub_cancel_left]
            · by_cases h3 : 3/10 ≤ (p - q) / p ∧ q < 8/10
              · simp [refinementLoop, hcond, hre, hcl, h1, h2, h3, stepState, List.range'_succ,
                  Nat.add_sub_cancel_left]
              · have hrec : refinementLoop c f p θ (n + 1) s =
                    refinementLoop c f p θ n (stepState s refined q) := by
                  simp [refinementLoop, hcond, hre, hcl, h1, h2, h3]
                rw [hrec, ih (stepState s refined q)]
                have hle : s.refinement_attempts + 1 ≤
                    (refinementLoop c f p θ n (stepState s refined q)).refinement_attempts := by
                  have h := refinementLoop_attempts_le c f p θ n (stepState s refined q)
                  rw [show (stepState s refined q).refinement_attempts
                    = s.refinement_attempts + 1 from rfl] at h
                  exact h
                obtain ⟨d, hd⟩ : ∃ d,
                    (refinementLoop c f p θ n (stepState s refined q)).refinement_attempts
                      - s.refinement_attempts = d + 1 :=
                  ⟨(refinementLoop c f p θ n (stepState s refined q)).refinement_attempts
                    - s.refinement_attempts - 1, by omega⟩
                rw [hd, List.range'_succ]
                have hd' :
                    (refinementLoop c f p θ n (stepState s refined q)).refinement_attempts
                      - (stepState s refined q).refinement_attempts = d := by
                  rw [show (stepState s refined q).refinement_attempts
                    = s.refinement_attempts + 1 from rfl]
                  omega
                rw [hd']
                simp [stepState]
    · simp [refinementLoop, hcond]

/-! ## Claim theorems -/

/-- C6: strategy selection is a pure, deterministic function of the 1-based
attempt index alone — attempt 1 uses the standard strategy, attempt 2 the
aggressive strategy, attempt 3 the rewrite strategy, and every attempt
index at least 4 the conservative strategy — and, whatever the oracles
answered earlier, the generation calls issued by the refinement loop are
exactly `strategyFor` applied to the consecutive attempt indices, so
selection has no dependence on prior outcomes. -/
theorem claim_C6_strategy_selection :
    strategyFor 1 = Strategy.standard ∧
    strategyFor 2 = Strategy.aggressive ∧
    strategyFor 3 = Strategy.rewrite ∧
    (∀ k, 4 ≤ k → strategyFor k = Strategy.conservative) ∧
    (∀ (c : String → Except String (Bool × ℚ))
        (f : Strategy → String → Except String String) (p θ : ℚ) (fuel : ℕ) (s : LoopState),
      (refinementLoop c f p θ fuel s).calls =
        s.calls ++ (List.range' (s.refinement_attempts + 1)
          ((refinementLoop c f p θ fuel s).refinement_attempts - s.refinement_attempts)).map
            strategyFor) := by
  refine ⟨rfl, rfl, rfl, fun k hk => ?_, fun c f p θ fuel s => refinementLoop_calls c f p θ fuel s⟩
  unfold strategyFor
  rw [if_neg (by omega), if_neg (by omega), if_neg (by omega)]

/-- C6 witness: the hypotheses of `claim_C6_strategy_selection` discharged at
attempt index 7 and at a concrete loop run. -/
theorem claim_C6_strategy_selection_witness :
    strategyFor 7 = Strategy.conservative ∧
    (refinementLoop scenarioClassify scenarioRefine (Rat.divInt 19 20) (Rat.divInt 3 5) 3
        { current_email := "original email", current_spam_prob := Rat.divInt 19 20,
          refinement_attempts := 0, calls := [] }).calls =
      [] ++ (List.range' 1
        ((refinementLoop scenarioClassify scenarioRefine (Rat.divInt 19 20) (Rat.divInt 3 5) 3
          { current_email := "original email", current_spam_prob := Rat.divInt 19 20,
            refinement_attempts := 0, calls := [] }).refinement_attempts - 0)).map strategyFor :=
  ⟨claim_C6_strategy_selection.2.2.2.1 7 (by norm_num),
   claim_C6_strategy_selection.2.2.2.2 scenarioClassify scenarioRefine
     (Rat.divInt 19 20) (Rat.divInt 3 5) 3
     { current_email := "original email", current_spam_prob := Rat.divInt 19 20,
       refinement_attempts := 0, calls := [] }⟩

/-- C8: whenever the original classification probability is strictly below
the refinement threshold, `process_email` performs zero refinement attempts
— the result is the plain classification record with
`refinement_attempts = 0`, no refined email, no final probability, no error
— and it does not depend on the generation oracle at all (no generation
call is made). -/
theorem claim_C8_below_threshold (c : String → Except String (Bool × ℚ))
    (f : Strategy → String → Except String String) (e : String) (θ : ℚ) (m : ℕ)
    (b : Bool) (p : ℚ) (hc : c e = Except.ok (b, p)) (hp : p < θ) :
    process_email c f e θ m =
      { original_email := e, is_spam := b, spam_probability := p } := by
  unfold process_email process_email_body
  rw [hc]
  simp only [if_neg (not_le.mpr hp)]

/-- C8 witness: `claim_C8_below_threshold` applied to a classifier scoring
0.1 against a 0.6 threshold. -/
theorem claim_C8_below_threshold_witness :
    process_email hamClassify alwaysFailRefine "hello colleague" (Rat.divInt 3 5) 5 =
      { original_email := "hello colleague", is_spam := false,
        spam_probability := Rat.divInt 1 10 } :=
  claim_C8_below_threshold hamClassify alwaysFailRefine "hello colleague" (Rat.divInt 3 5) 5
    false (Rat.divInt 1 10) rfl (by decide)

/-- C9 counterexample: the claim says two successive `generate` calls are
separated by at least the minimum interval measured end-to-start.  With
`last_request_time = 0`, a first call arriving at time 10 that takes 5 time
units, and a second call arriving immediately after it finishes, the second
call starts exactly when the first one ends: the end-to-start gap is 0,
strictly less than the 1.0 minimum interval, because `_rate_limit` records
the start (not the end) of the previous call. -/
theorem claim_C9_counterexample :
    (twoCalls 0 10 5 0 0).2.start - (twoCalls 0 10 5 0 0).1.finish = 0 ∧
    (twoCalls 0 10 5 0 0).2.start - (twoCalls 0 10 5 0 0).1.finish < min_request_interval := by
  norm_num [twoCalls, rate_limit, min_request_interval]

/-- C9 (amended): two successive `generate` calls through one refiner
instance are separated by at least the minimum interval of 1.0 time unit
measured start-to-start — `_rate_limit` stores `time.time()` taken before
the outbound call, so a call arriving sooner than one interval after the
previous call started blocks until the interval has elapsed since that
start. -/
theorem claim_C9_amended (last0 t1 d1 g d2 : ℚ) :
    (twoCalls last0 t1 d1 g d2).1.start + min_request_interval ≤
      (twoCalls last0 t1 d1 g d2).2.start := by
  have key : ∀ last current : ℚ, last + min_request_interval ≤ rate_limit last current := by
    intro last current
    unfold rate_limit
    split
    · linarith
    · rename_i h
      rw [not_lt] at h
      linarith
  exact key _ _

unseal Rat.sub Rat.mul Rat.inv Rat.add in
/-- C10 counterexample: the claim says every exception raised by the
classifier or the refinement gateway during the call ends with the failure
recorded in `errorMessage`.  Here the generation gateway raises on attempt 2
(after attempt 1 lowered the probability from 0.9 to 0.7), yet the returned
result is a success record with `error_message = none`. -/
theorem claim_C10_counterexample :
    failSecondRefine Strategy.aggressive "refined one" =
      Except.error "generation service unavailable" ∧
    process_email improveClassify failSecondRefine "original email" (Rat.divInt 3 5) 5 =
      { original_email := "original email", is_spam := true,
        spam_probability := Rat.divInt 9 10, refined_email := some "refined one",
        refinement_success := true, refinement_attempts := 2,
        final_spam_probability := some (Rat.divInt 7 10), error_message := none } := by
  constructor
  · rfl
  · decide

/-- C10 (amended): `process_email` is total at its public boundary — it
always returns an `EmailAnalysisResult` and never propagates an exception.
When the classifier raises on the original email the failure is recorded in
`error_message` as `"Processing failed: ..."`; when the original
classification succeeds, the body returns normally — in particular every
refinement-gateway exception is absorbed — though a generation failure that
strikes after a net improvement yields a success result whose
`error_message` is absent. -/
theorem claim_C10_amended :
    (∀ (c : String → Except String (Bool × ℚ))
        (f : Strategy → String → Except String String) (e : String) (θ : ℚ) (m : ℕ)
        (msg : String), c e = Except.error msg →
      process_email c f e θ m =
        { original_email := e, is_spam := false, spam_probability := 0,
          error_message := some ("Processing failed: " ++ msg) }) ∧
    (∀ (c : String → Except String (Bool × ℚ))
        (f : Strategy → String → Except String String) (e : String) (θ : ℚ) (m : ℕ)
        (b : Bool) (p : ℚ), c e = Except.ok (b, p) →
      ∃ r, process_email_body c f e θ m = Except.ok r ∧ process_email c f e θ m = r) := by
  constructor
  · intro c f e θ m msg hc
    unfold process_email process_email_body
    rw [hc]
  · intro c f e θ m b p hc
    obtain ⟨r, hr⟩ : ∃ r, process_email_body c f e θ m = Except.ok r := by
      unfold process_email_body
      simp only [hc]
      split
      · exact ⟨_, rfl⟩
      · exact ⟨_, rfl⟩
    refine ⟨r, hr, ?_⟩
    unfold process_email
    rw [hr]

/-- C10 witness: `claim_C10_amended` discharged at a raising classifier and
at a succeeding classifier. -/
theorem claim_C10_amended_witness :
    process_email errClassify alwaysFailRefine "any text" (Rat.divInt 3 5) 5 =
      { original_email := "any text", is_spam := false, spam_probability := 0,
        error_message := some ("Processing failed: " ++ "model not loaded") } ∧
    ∃ r, process_email_body hamClassify alwaysFailRefine "any text" (Rat.divInt 3 5) 5 =
        Except.ok r ∧
      process_email hamClassify alwaysFailRefine "any text" (Rat.divInt 3 5) 5 = r :=
  ⟨claim_C10_amended.1 errClassify alwaysFailRefine "any text" (Rat.divInt 3 5) 5
      "model not loaded" rfl,
   claim_C10_amended.2 hamClassify alwaysFailRefine "any text" (Rat.divInt 3 5) 5
      false (Rat.divInt 1 10) rfl⟩

unseal Rat.sub Rat.mul Rat.inv Rat.add in
/-- C1 counterexample: the claim says a `ClassifierError` is always
propagated out of `process_email` as a hard failure and never caught
locally.  Here the classifier succeeds on the original email (0.9) but
raises while scoring the refined text of attempt 1; the inner loop handler
catches it (`process_email_body` returns `ok`, nothing propagates), the
loop stops with the attempt counted, and the result is an ordinary
refinement-failure record, not a pipeline-level failure. -/
theorem claim_C1_counterexample :
    refinedFailClassify "refined one" = Except.error "inference failure" ∧
    constantRefine Strategy.standard "original email" = Except.ok "refined one" ∧
    (process_email_body refinedFailClassify constantRefine "original email"
      (Rat.divInt 3 5) 5).isOk = true ∧
    process_email refinedFailClassify constantRefine "original email" (Rat.divInt 3 5) 5 =
      { original_email := "original email", is_spam := true,
        spam_probability := Rat.divInt 9 10, refinement_attempts := 1,
        final_spam_probability := some (Rat.divInt 9 10),
        error_message := some ("Refinement failed after " ++ toString 1
          ++ " attempts. Final score: " ++ toString (Rat.divInt 9 10)) } := by
  refine ⟨rfl, rfl, ?_, ?_⟩ <;> decide

/-- C1 (amended): a `ClassifierError` is never retried.  An error while
classifying the original email escapes the refinement region and is handled
only by the top-level handler of `process_email`, which returns a result
with `error_message = "Processing failed: ..."` instead of raising to the
caller; an error while classifying a refined email inside the loop is
caught by the loop-local handler, which ends the loop immediately with the
attempt counted and the current text and probability unchanged. -/
theorem claim_C1_amended :
    (∀ (c : String → Except String (Bool × ℚ))
        (f : Strategy → String → Except String String) (e : String) (θ : ℚ) (m : ℕ)
        (msg : String), c e = Except.error msg →
      process_email c f e θ m =
        { original_email := e, is_spam := false, spam_probability := 0,
          error_message := some ("Processing failed: " ++ msg) }) ∧
    (∀ (c : String → Except String (Bool × ℚ))
        (f : Strategy → String → Except String String) (p θ : ℚ) (fuel : ℕ)
        (s : LoopState) (t msg : String),
      θ ≤ s.current_spam_prob →
      f (strategyFor (s.refinement_attempts + 1)) s.current_email = Except.ok t →
      c t = Except.error msg →
      refinementLoop c f p θ (fuel + 1) s = breakState s) := by
  constructor
  · intro c f e θ m msg hc
    unfold process_email process_email_body
    rw [hc]
  · intro c f p θ fuel s t msg hcond href hcls
    simp [refinementLoop, hcond, href, hcls]

/-- C1 witness: `claim_C1_amended` discharged at a raising classifier and at
a classifier that raises only on the refined text. -/
theorem claim_C1_amended_witness :
    process_email errClassify constantRefine "some text" (Rat.divInt 3 5) 5 =
      { original_email := "some text", is_spam := false, spam_probability := 0,
        error_message := some ("Processing failed: " ++ "model not loaded") } ∧
    refinementLoop refinedFailClassify constantRefine (Rat.divInt 9 10) (Rat.divInt 3 5) 5
        { current_email := "original email", current_spam_prob := Rat.divInt 9 10,
          refinement_attempts := 0, calls := [] } =
      breakState { current_email := "original email", current_spam_prob := Rat.divInt 9 10,
                   refinement_attempts := 0, calls := [] } :=
  ⟨claim_C1_amended.1 errClassify constantRefine "some text" (Rat.divInt 3 5) 5
      "model not loaded" rfl,
   claim_C1_amended.2 refinedFailClassify constantRefine (Rat.divInt 9 10) (Rat.divInt 3 5) 4
     { current_email := "original email", current_spam_prob := Rat.divInt 9 10,
       refinement_attempts := 0, calls := [] } "refined one" "inference failure"
     (by decide) rfl rfl⟩

/-- C2 counterexample: the claim says `refinement_attempts = 0` implies
`final_spam_probability` is absent, for every `maxAttempts ≥ 0`.  With a
0.9-scoring classifier, a 0.6 threshold and `max_refinement_attempts = 0`,
the loop body never runs (`refinement_attempts = 0`) yet the reconciliation
else-branch still stores `final_spam_probability = 0.9`. -/
theorem claim_C2_counterexample :
    (process_email alwaysSpamClassify constantRefine "any email"
      (Rat.divInt 3 5) 0).refinement_attempts = 0 ∧
    (process_email alwaysSpamClassify constantRefine "any email"
      (Rat.divInt 3 5) 0).final_spam_probability = some (Rat.divInt 9 10) := by
  constructor <;> decide

/-- C2 (amended): in every returned result with `refinement_attempts = 0`,
`refined_email` is absent, and `final_spam_probability` is also absent
except in one corner: when the original probability met the threshold but
the attempt budget was zero, in which case `final_spam_probability` equals
`spam_probability` and `error_message` is set. -/
theorem claim_C2_amended (c : String → Except String (Bool × ℚ))
    (f : Strategy → String → Except String String) (e : String) (θ : ℚ) (m : ℕ)
    (h : (process_email c f e θ m).refinement_attempts = 0) :
    (process_email c f e θ m).refined_email = none ∧
    ((process_email c f e θ m).final_spam_probability = none ∨
      (m = 0 ∧ (process_email c f e θ m).final_spam_probability =
        some (process_email c f e θ m).spam_probability ∧
        (process_email c f e θ m).error_message.isSome = true)) := by
  rcases hce : c e with msg | bp
  · have hpe : process_email c f e θ m =
        { original_email := e, is_spam := false, spam_probability := 0,
          error_message := some ("Processing failed: " ++ msg) } := by
      unfold process_email process_email_body
      rw [hce]
    rw [hpe]
    exact ⟨rfl, Or.inl rfl⟩
  · obtain ⟨b, p⟩ := bp
    by_cases hθ : θ ≤ p
    · cases m with
      | zero =>
        have hpe : process_email c f e θ 0 =
            { original_email := e, is_spam := b, spam_probability := p,
              refinement_attempts := 0, final_spam_probability := some p,
              error_message := some ("Refinement failed after " ++ toString 0
                ++ " attempts. Final score: " ++ toString p) } := by
          unfold process_email process_email_body
          simp only [hce, if_pos hθ]
          unfold refinementLoop reconcile
          simp
        rw [hpe]
        exact ⟨rfl, Or.inr ⟨rfl, rfl, rfl⟩⟩
      | succ m' =>
        exfalso
        have h1 := refinementLoop_attempts_pos c f p θ m'
          { current_email := e, current_spam_prob := p, refinement_attempts := 0,
            calls := [] } hθ
        have h2 : (process_email c f e θ (m' + 1)).refinement_attempts =
            (refinementLoop c f p θ (m' + 1)
              { current_email := e, current_spam_prob := p, refinement_attempts := 0,
                calls := [] }).refinement_attempts := by
          unfold process_email process_email_body
          simp only [hce, if_pos hθ]
          exact reconcile_refinement_attempts e b p _
        omega
    · have hpe : process_email c f e θ m =
          { original_email := e, is_spam := b, spam_probability := p } := by
        unfold process_email process_email_body
        simp only [hce, if_neg hθ]
      rw [hpe]
      exact ⟨rfl, Or.inl rfl⟩

/-- C2 witness: `claim_C2_amended` discharged at a ham-scoring classifier
(zero attempts because the threshold is not met). -/
theorem claim_C2_amended_witness :
    (process_email hamClassify alwaysFailRefine "hello" (Rat.divInt 3 5) 5).refined_email
      = none ∧
    ((process_email hamClassify alwaysFailRefine "hello" (Rat.divInt 3 5) 5).final_spam_probability
        = none ∨
      (5 = 0 ∧ (process_email hamClassify alwaysFailRefine "hello"
          (Rat.divInt 3 5) 5).final_spam_probability =
        some (process_email hamClassify alwaysFailRefine "hello"
          (Rat.divInt 3 5) 5).spam_probability ∧
        (process_email hamClassify alwaysFailRefine "hello"
          (Rat.divInt 3 5) 5).error_message.isSome = true)) :=
  claim_C2_amended hamClassify alwaysFailRefine "hello" (Rat.divInt 3 5) 5 (by decide)

unseal Rat.sub Rat.mul Rat.inv Rat.add in
/-- C3: when the refinement loop ends after at least one executed attempt,
`refinement_success` is true iff the loop's last probability is strictly
below the original probability (not the previous iteration's), in which
case `refined_email` is the loop's last text and `final_spam_probability`
its last probability.  In the §8 scenario — original 0.95, threshold 0.6,
`max_refinement_attempts = 3`, attempt probabilities 0.7, 0.9, 0.75 — the
worsening at attempt 2 does not stop the loop and the result is
`refinement_success = true`, `final_spam_probability = 0.75`,
`refinement_attempts = 3`. -/
theorem claim_C3_success_vs_original :
    (process_email scenarioClassify scenarioRefine "original email" (Rat.divInt 3 5) 3 =
      { original_email := "original email", is_spam := true,
        spam_probability := Rat.divInt 19 20, refined_email := some "refined three",
        refinement_success := true, refinement_attempts := 3,
        final_spam_probability := some (Rat.divInt 3 4), error_message := none }) ∧
    (∀ (c : String → Except String (Bool × ℚ))
        (f : Strategy → String → Except String String) (e : String) (θ : ℚ) (m : ℕ)
        (b : Bool) (p : ℚ) (L : LoopState),
      c e = Except.ok (b, p) → θ ≤ p →
      L = refinementLoop c f p θ m
        { current_email := e, current_spam_prob := p, refinement_attempts := 0,
          calls := [] } →
      1 ≤ L.refinement_attempts →
      ((process_email c f e θ m).refinement_success = true ↔ L.current_spam_prob < p) ∧
      (L.current_spam_prob < p →
        (process_email c f e θ m).refined_email = some L.current_email ∧
        (process_email c f e θ m).final_spam_probability = some L.current_spam_prob ∧
        (process_email c f e θ m).refinement_attempts = L.refinement_attempts)) := by
  constructor
  · decide
  · intro c f e θ m b p L hc hθ hL hA
    have hpe : process_email c f e θ m = reconcile e b p L := by
      unfold process_email process_email_body
      simp only [hc, if_pos hθ]
      rw [hL]
    rw [hpe]
    constructor
    · rw [reconcile_success_iff]
      constructor
      · rintro ⟨_, h2⟩
        exact h2
      · intro h2
        exact ⟨by omega, h2⟩
    · intro hlt
      rw [reconcile_eq_of_success e b p L (by omega) hlt]
      exact ⟨rfl, rfl, rfl⟩

unseal Rat.sub Rat.mul Rat.inv Rat.add in
/-- C3 witness: the general part of `claim_C3_success_vs_original`
discharged on the concrete §8 scenario run. -/
theorem claim_C3_success_vs_original_witness :
    (process_email scenarioClassify scenarioRefine "original email"
      (Rat.divInt 3 5) 3).refinement_success = true :=
  ((claim_C3_success_vs_original.2 scenarioClassify scenarioRefine "original email"
      (Rat.divInt 3 5) 3 true (Rat.divInt 19 20)
      (refinementLoop scenarioClassify scenarioRefine (Rat.divInt 19 20) (Rat.divInt 3 5) 3
        { current_email := "original email", current_spam_prob := Rat.divInt 19 20,
          refinement_attempts := 0, calls := [] })
      rfl (by decide) rfl (by decide)).1).mpr (by decide)

/-- C5: if the generation call of attempt 1 fails (its internal retries
already exhausted), the loop stops immediately without trying another
strategy at the same attempt — exactly one generation call, the standard
strategy, is recorded — the attempt counts as executed, no exception leaves
`process_email` (`process_email_body` returns `ok`), and the result has
`refinement_attempts = 1`, `refinement_success = false`, a non-empty
`error_message` and no `refined_email`. -/
theorem claim_C5_generation_failure_stops (c : String → Except String (Bool × ℚ))
    (f : Strategy → String → Except String String) (e : String) (θ p : ℚ) (m : ℕ)
    (b : Bool) (msg : String) (hc : c e = Except.ok (b, p)) (hθ : θ ≤ p) (hm : 1 ≤ m)
    (hf : f Strategy.standard e = Except.error msg) :
    refinementLoop c f p θ m
        { current_email := e, current_spam_prob := p, refinement_attempts := 0,
          calls := [] } =
      { current_email := e, current_spam_prob := p, refinement_attempts := 1,
        calls := [Strategy.standard] } ∧
    (process_email_body c f e θ m).isOk = true ∧
    process_email c f e θ m =
      { original_email := e, is_spam := b, spam_probability := p,
        refinement_attempts := 1, final_spam_probability := some p,
        error_message := some ("Refinement failed after " ++ toString 1
          ++ " attempts. Final score: " ++ toString p) } := by
  obtain ⟨m', rfl⟩ : ∃ m', m = m' + 1 := ⟨m - 1, by omega⟩
  have hloop : refinementLoop c f p θ (m' + 1)
      { current_email := e, current_spam_prob := p, refinement_attempts := 0,
        calls := [] } =
      { current_email := e, current_spam_prob := p, refinement_attempts := 1,
        calls := [Strategy.standard] } := by
    simp [refinementLoop, strategyFor, hθ, hf, breakState]
  refine ⟨hloop, ?_, ?_⟩
  · unfold process_email_body
    simp only [hc, if_pos hθ, hloop]
    rfl
  · unfold process_email process_email_body
    simp only [hc, if_pos hθ, hloop]
    unfold reconcile
    rw [if_neg]
    rintro ⟨_, h2⟩
    exact absurd h2 (lt_irrefl p)

/-- C5 witness: `claim_C5_generation_failure_stops` discharged at a
0.9-scoring classifier and an always-failing generation gateway. -/
theorem claim_C5_generation_failure_stops_witness :
    refinementLoop alwaysSpamClassify alwaysFailRefine (Rat.divInt 9 10) (Rat.divInt 3 5) 5
        { current_email := "spam email", current_spam_prob := Rat.divInt 9 10,
          refinement_attempts := 0, calls := [] } =
      { current_email := "spam email", current_spam_prob := Rat.divInt 9 10,
        refinement_attempts := 1, calls := [Strategy.standard] } ∧
    (process_email_body alwaysSpamClassify alwaysFailRefine "spam email"
      (Rat.divInt 3 5) 5).isOk = true ∧
    process_email alwaysSpamClassify alwaysFailRefine "spam email" (Rat.divInt 3 5) 5 =
      { original_email := "spam email", is_spam := true,
        spam_probability := Rat.divInt 9 10, refinement_attempts := 1,
        final_spam_probability := some (Rat.divInt 9 10),
        error_message := some ("Refinement failed after " ++ toString 1
          ++ " attempts. Final score: " ++ toString (Rat.divInt 9 10)) } :=
  claim_C5_generation_failure_stops alwaysSpamClassify alwaysFailRefine "spam email"
    (Rat.divInt 3 5) (Rat.divInt 9 10) 5 true "gemini api error" rfl (by decide)
    (by norm_num) rfl

/-- C7: within a refinement iteration whose new probability is still at or
above the threshold, the loop stops early and accepts the result whenever
`improvementRatio = (originalProbability - newProbability) / originalProbability
≥ 0.3` and `newProbability < 0.8` — the check sits after the below-threshold
check and before any continue/exhaustion decision, and acceptance implies
the new probability strictly improves on the original. -/
theorem claim_C7_accept_with_improvement (c : String → Except String (Bool × ℚ))
    (f : Strategy → String → Except String String) (p θ q : ℚ) (fuel : ℕ)
    (s : LoopState) (t : String) (b : Bool)
    (hcond : θ ≤ s.current_spam_prob)
    (href : f (strategyFor (s.refinement_attempts + 1)) s.current_email = Except.ok t)
    (hcls : c t = Except.ok (b, q))
    (hq : θ ≤ q) (hp : 0 < p)
    (hratio : 3/10 ≤ (p - q) / p) (hq8 : q < 8/10) :
    refinementLoop c f p θ (fuel + 1) s = stepState s t q ∧ q < p := by
  have hqp : q < p := by
    have h1 : 3/10 * p ≤ p - q := (le_div_iff₀ hp).mp hratio
    nlinarith
  have hq' : ¬q < θ := not_lt.mpr hq
  have hp' : ¬p = 0 := ne_of_gt hp
  refine ⟨?_, hqp⟩
  simp [refinementLoop, hcond, href, hcls, hq', hp', hratio, hq8]

/-- C7 witness: `claim_C7_accept_with_improvement` discharged at a run whose
attempt-1 probability 0.62 stays above the 0.6 threshold but improves on
0.9 by more than 30%. -/
theorem claim_C7_accept_with_improvement_witness :
    refinementLoop earlyStopClassify scenarioRefine (Rat.divInt 9 10) (Rat.divInt 3 5) 5
        { current_email := "original email", current_spam_prob := Rat.divInt 9 10,
          refinement_attempts := 0, calls := [] } =
      stepState { current_email := "original email", current_spam_prob := Rat.divInt 9 10,
                  refinement_attempts := 0, calls := [] } "refined one" (Rat.divInt 31 50) ∧
    Rat.divInt 31 50 < Rat.divInt 9 10 :=
  claim_C7_accept_with_improvement earlyStopClassify scenarioRefine (Rat.divInt 9 10)
    (Rat.divInt 3 5) (Rat.divInt 31 50) 4
    { current_email := "original email", current_spam_prob := Rat.divInt 9 10,
      refinement_attempts := 0, calls := [] } "refined one" true
    (by decide) rfl rfl (by decide) (by decide)
    (by norm_num [Rat.divInt_eq_div]) (by norm_num [Rat.divInt_eq_div])

/-- One step of the retry loop when the current call raises. -/
theorem refineAttempts_raises_step (calls : ℕ → CallOutcome) (max_retries attempt remaining : ℕ)
    (msg : String) (h : calls attempt = CallOutcome.raises msg) :
    refineAttempts calls max_retries attempt (remaining + 1) =
      if attempt < max_retries - 1 then
        ((refineAttempts calls max_retries (attempt + 1) remaining).1,
          2 ^ attempt :: (refineAttempts calls max_retries (attempt + 1) remaining).2)
      else (Except.error msg, []) := by
  simp only [refineAttempts, h]

/-- One step of the retry loop when the current call returns a response. -/
theorem refineAttempts_responds_step (calls : ℕ → CallOutcome) (max_retries attempt remaining : ℕ)
    (t : String) (h : calls attempt = CallOutcome.responds t) :
    refineAttempts calls max_retries attempt (remaining + 1) =
      if pyStrip t ≠ "" ∧ (pyStrip t).length > 10 then (Except.ok (pyStrip t), [])
      else refineAttempts calls max_retries (attempt + 1) remaining := by
  simp only [refineAttempts, h]

/-- Retry-loop characterization over an arbitrary call sequence in which
every attempt fails (raises or responds too short, mixed freely): the loop
runs all `n` attempts; a backoff sleep `2 ^ k` is performed exactly for
each raising attempt `k` other than the last, never for a too-short
response; and the final error is the last attempt's own: its exception if
it raised, the failed-after-N message if it responded too short. -/
theorem refineAttempts_all_fail (calls : ℕ → CallOutcome) (n : ℕ)
    (h : ∀ k, k < n → (calls k).succeeds = false) :
    ∀ remaining attempt, attempt + remaining + 1 = n →
      refineAttempts calls n attempt (remaining + 1) =
        (Except.error (match calls (n - 1) with
          | CallOutcome.raises msg => msg
          | CallOutcome.responds _ =>
            "Failed to refine email after " ++ toString n ++ " attempts"),
         ((List.range' attempt remaining).filter (fun k => (calls k).isRaise)).map
           (fun k => 2 ^ k)) := by
  intro remaining
  induction remaining with
  | zero =>
    intro attempt hsum
    have hk : attempt < n := by omega
    have he : attempt = n - 1 := by omega
    rcases hc : calls attempt with msg | t
    · rw [refineAttempts_raises_step calls n attempt 0 msg hc,
        if_neg (show ¬(attempt < n - 1) from by omega)]
      rw [he] at hc
      simp [hc]
    · have hshort : ¬(pyStrip t ≠ "" ∧ (pyStrip t).length > 10) := by
        have hs := h attempt hk
        rw [hc] at hs
        simpa [CallOutcome.succeeds] using hs
      rw [refineAttempts_responds_step calls n attempt 0 t hc, if_neg hshort]
      rw [he] at hc
      simp [refineAttempts, hc]
  | succ r ih =>
    intro attempt hsum
    have hk : attempt < n := by omega
    have hlt : attempt < n - 1 := by omega
    rcases hc : calls attempt with msg | t
    · rw [refineAttempts_raises_step calls n attempt (r + 1) msg hc, if_pos hlt,
        ih (attempt + 1) (by omega), List.range'_succ]
      simp [hc, CallOutcome.isRaise]
    · have hshort : ¬(pyStrip t ≠ "" ∧ (pyStrip t).length > 10) := by
        have hs := h attempt hk
        rw [hc] at hs
        simpa [CallOutcome.succeeds] using hs
      rw [refineAttempts_responds_step calls n attempt (r + 1) t hc, if_neg hshort,
        ih (attempt + 1) (by omega), List.range'_succ]
      simp [hc, CallOutcome.isRaise]

/-- Retry-loop characterization over an arbitrary call sequence whose
first success is at attempt `j` (every earlier attempt raises or responds
too short, mixed freely): the loop returns the stripped response of
attempt `j`, having slept `2 ^ k` exactly for each raising attempt
`k < j`. -/
theorem refineAttempts_first_success (calls : ℕ → CallOutcome) (n j : ℕ) (t : String)
    (hj : calls j = CallOutcome.responds t)
    (hok : pyStrip t ≠ "" ∧ (pyStrip t).length > 10)
    (h : ∀ k, k < j → (calls k).succeeds = false) :
    ∀ remaining attempt, attempt ≤ j → attempt + remaining = n → j < n →
      refineAttempts calls n attempt remaining =
        (Except.ok (pyStrip t),
         ((List.range' attempt (j - attempt)).filter (fun k => (calls k).isRaise)).map
           (fun k => 2 ^ k)) := by
  intro remaining
  induction remaining with
  | zero =>
    intro attempt h1 h2 h3
    omega
  | succ r ih =>
    intro attempt h1 h2 h3
    by_cases haj : attempt = j
    · subst haj
      rw [refineAttempts_responds_step calls n attempt r t hj, if_pos hok]
      simp
    · have haj' : attempt < j := by omega
      rcases hc : calls attempt with msg | t'
      · have hlt : attempt < n - 1 := by omega
        rw [refineAttempts_raises_step calls n attempt r msg hc, if_pos hlt,
          ih (attempt + 1) (by omega) (by omega) h3]
        rw [show j - attempt = (j - (attempt + 1)) + 1 from by omega, List.range'_succ]
        simp [hc, CallOutcome.isRaise]
      · have hshort : ¬(pyStrip t' ≠ "" ∧ (pyStrip t').length > 10) := by
          have hs := h attempt haj'
          rw [hc] at hs
          simpa [CallOutcome.succeeds] using hs
        rw [refineAttempts_responds_step calls n attempt r t' hc, if_neg hshort,
          ih (attempt + 1) (by omega) (by omega) h3]
        rw [show j - attempt = (j - (attempt + 1)) + 1 from by omega, List.range'_succ]
        simp [hc, CallOutcome.isRaise]

/-- C4 counterexample: the claim says the gateway waits `2 ^ attemptIndex`
before the next attempt whenever a response is judged too short, and that
exhaustion fails with a generic exhausted-retries error.  With every call
returning the 5-character response `"short"` and `max_retries = 3`, the
code performs no backoff sleep at all (the claimed schedule would be
`[2 ^ 0, 2 ^ 1]`) and raises `"Failed to refine email after 3 attempts"`. -/
theorem claim_C4_counterexample :
    refine_spam_email shortCalls 3 =
      (Except.error "Failed to refine email after 3 attempts", []) ∧
    (refine_spam_email shortCalls 3).2 ≠ [2 ^ 0, 2 ^ 1] := by
  constructor <;> decide

/-- C4 (amended): for an arbitrary sequence of call outcomes,
`refine_spam_email` makes up to `max_retries` total attempts, retrying
while attempts fail (a raised exception or a response whose stripped
length is at most 10).  A backoff sleep of `2 ^ attemptIndex` time units
happens exactly after each raising attempt other than the last executed
one; a too-short response retries immediately with no sleep.  If all `n`
attempts fail, the error is the last attempt's own: its exception is
re-raised if it raised, and the generic
`"Failed to refine email after n attempts"` error is raised if it
responded too short.  If some attempt succeeds first, the loop returns
that attempt's stripped response after exactly the backoff sleeps of the
raising attempts before it. -/
theorem claim_C4_amended :
    (∀ (calls : ℕ → CallOutcome) (n : ℕ),
      (∀ k, k < n → (calls k).succeeds = false) → 1 ≤ n →
      refine_spam_email calls n =
        (Except.error (match calls (n - 1) with
          | CallOutcome.raises msg => msg
          | CallOutcome.responds _ =>
            "Failed to refine email after " ++ toString n ++ " attempts"),
         ((List.range (n - 1)).filter (fun k => (calls k).isRaise)).map
           (fun k => 2 ^ k))) ∧
    (∀ (calls : ℕ → CallOutcome) (n j : ℕ) (t : String),
      j < n → calls j = CallOutcome.responds t →
      pyStrip t ≠ "" ∧ (pyStrip t).length > 10 →
      (∀ k, k < j → (calls k).succeeds = false) →
      refine_spam_email calls n =
        (Except.ok (pyStrip t),
         ((List.range j).filter (fun k => (calls k).isRaise)).map (fun k => 2 ^ k))) := by
  constructor
  · intro calls n h hn
    obtain ⟨n', rfl⟩ : ∃ n', n = n' + 1 := ⟨n - 1, by omega⟩
    unfold refine_spam_email
    rw [refineAttempts_all_fail calls (n' + 1) h n' 0 (by omega)]
    simp [List.range_eq_range']
  · intro calls n j t hjn hj hok h
    unfold refine_spam_email
    rw [refineAttempts_first_success calls n j t hj hok h n 0 (by omega) (by omega) hjn]
    simp [List.range_eq_range']

/-- C4 witness: `claim_C4_amended` discharged on a mixed run — attempt 0
raises (sleep `2 ^ 0`), attempt 1 responds too short (no sleep), attempt 2
raises last and its own exception is re-raised — and on a mixed run whose
attempt 2 succeeds after a raise and a too-short response. -/
theorem claim_C4_amended_witness :
    refine_spam_email mixedCalls 3 = (Except.error "server error", [1]) ∧
    refine_spam_email (fun k => if k = 2
        then CallOutcome.responds "a long enough refined email"
        else mixedCalls k) 4 =
      (Except.ok (pyStrip "a long enough refined email"), [1]) :=
  ⟨claim_C4_amended.1 mixedCalls 3 (by decide) (by norm_num),
   claim_C4_amended.2 (fun k => if k = 2
       then CallOutcome.responds "a long enough refined email"
       else mixedCalls k) 4 2 "a long enough refined email"
     (by norm_num) rfl (by decide) (by decide)⟩

end SpamGuard
